import Mathlib

/-!
Verification of the Cito protocol client (`ressources/citobase.py`).

The Python class `CitoBase` is embedded shallowly:

* machine bytes are `Nat` values below 256, masked explicitly where the
  Python code masks;
* the socket / serial handle is replaced by explicit transport outcomes
  (`SendOutcome`, `RecvOutcome`, ...) passed to the functions, so that a
  theorem can quantify over every behaviour of the device;
* Python exceptions that can escape a function are modelled with
  `Except PyError`;
* the mutable `self.transaction_number` field is threaded explicitly.
-/

namespace Cito

/-- Python exceptions that the modelled code can raise. -/
inductive PyError : Type
| valueError
| indexError
| structError
| attributeError
deriving DecidableEq

/-- Outcome of a blocking transport send (`socket.send` / `Serial.write`). -/
inductive SendOutcome : Type
| ok
| timeout
| err
deriving DecidableEq

/-- Outcome of `socket.recv(300)` in Ethernet mode: the received bytes, a
`socket.timeout`, or another exception. -/
inductive RecvOutcome : Type
| bytes (bs : List Nat)
| timeout
| err
deriving DecidableEq

/-- Outcome of the serial receive loop: the loop either completes with an
accepted buffer (length at least 5 whose trailing two bytes match the CRC16
of the rest), hits the 1000 ms timeout with a partial buffer, or a
`SerialException` occurs with a partial buffer. -/
inductive SerRecvOutcome : Type
| accepted (bs : List Nat)
| timeout (buffered : List Nat)
| err (buffered : List Nat)
deriving DecidableEq

/-- The 256-entry lookup table of `_calc_crc16`, copied byte for byte from
the source. -/
def crc16Tab : List Nat := [
  0x0000, 0xC0C1, 0xC181, 0x0140, 0xC301, 0x03C0, 0x0280, 0xC241,
  0xC601, 0x06C0, 0x0780, 0xC741, 0x0500, 0xC5C1, 0xC481, 0x0440,
  0xCC01, 0x0CC0, 0x0D80, 0xCD41, 0x0F00, 0xCFC1, 0xCE81, 0x0E40,
  0x0A00, 0xCAC1, 0xCB81, 0x0B40, 0xC901, 0x09C0, 0x0880, 0xC841,
  0xD801, 0x18C0, 0x1980, 0xD941, 0x1B00, 0xDBC1, 0xDA81, 0x1A40,
  0x1E00, 0xDEC1, 0xDF81, 0x1F40, 0xDD01, 0x1DC0, 0x1C80, 0xDC41,
  0x1400, 0xD4C1, 0xD581, 0x1540, 0xD701, 0x17C0, 0x1680, 0xD641,
  0xD201, 0x12C0, 0x1380, 0xD341, 0x1100, 0xD1C1, 0xD081, 0x1040,
  0xF001, 0x30C0, 0x3180, 0xF141, 0x3300, 0xF3C1, 0xF281, 0x3240,
  0x3600, 0xF6C1, 0xF781, 0x3740, 0xF501, 0x35C0, 0x3480, 0xF441,
  0x3C00, 0xFCC1, 0xFD81, 0x3D40, 0xFF01, 0x3FC0, 0x3E80, 0xFE41,
  0xFA01, 0x3AC0, 0x3B80, 0xFB41, 0x3900, 0xF9C1, 0xF881, 0x3840,
  0x2800, 0xE8C1, 0xE981, 0x2940, 0xEB01, 0x2BC0, 0x2A80, 0xEA41,
  0xEE01, 0x2EC0, 0x2F80, 0xEF41, 0x2D00, 0xEDC1, 0xEC81, 0x2C40,
  0xE401, 0x24C0, 0x2580, 0xE541, 0x2700, 0xE7C1, 0xE681, 0x2640,
  0x2200, 0xE2C1, 0xE381, 0x2340, 0xE101, 0x21C0, 0x2080, 0xE041,
  0xA001, 0x60C0, 0x6180, 0xA141, 0x6300, 0xA3C1, 0xA281, 0x6240,
  0x6600, 0xA6C1, 0xA781, 0x6740, 0xA501, 0x65C0, 0x6480, 0xA441,
  0x6C00, 0xACC1, 0xAD81, 0x6D40, 0xAF01, 0x6FC0, 0x6E80, 0xAE41,
  0xAA01, 0x6AC0, 0x6B80, 0xAB41, 0x6900, 0xA9C1, 0xA881, 0x6840,
  0x7800, 0xB8C1, 0xB981, 0x7940, 0xBB01, 0x7BC0, 0x7A80, 0xBA41,
  0xBE01, 0x7EC0, 0x7F80, 0xBF41, 0x7D00, 0xBDC1, 0xBC81, 0x7C40,
  0xB401, 0x74C0, 0x7580, 0xB541, 0x7700, 0xB7C1, 0xB681, 0x7640,
  0x7200, 0xB2C1, 0xB381, 0x7340, 0xB101, 0x71C0, 0x7080, 0xB041,
  0x5000, 0x90C1, 0x9181, 0x5140, 0x9301, 0x53C0, 0x5280, 0x9241,
  0x9601, 0x56C0, 0x5780, 0x9741, 0x5500, 0x95C1, 0x9481, 0x5440,
  0x9C01, 0x5CC0, 0x5D80, 0x9D41, 0x5F00, 0x9FC1, 0x9E81, 0x5E40,
  0x5A00, 0x9AC1, 0x9B81, 0x5B40, 0x9901, 0x59C0, 0x5880, 0x9841,
  0x8801, 0x48C0, 0x4980, 0x8941, 0x4B00, 0x8BC1, 0x8A81, 0x4A40,
  0x4E00, 0x8EC1, 0x8F81, 0x4F40, 0x8D01, 0x4DC0, 0x4C80, 0x8C41,
  0x4400, 0x84C1, 0x8581, 0x4540, 0x8701, 0x47C0, 0x4680, 0x8641,
  0x8201, 0x42C0, 0x4380, 0x8341, 0x4100, 0x81C1, 0x8081, 0x4040]

/-- One step of the CRC16 recurrence of `_calc_crc16`:
`crc = (crc >> 8) ^ crc16_tab[(crc & 0xFF) ^ byte]`.  The table lookup is
total via `getD`; for byte values below 256 the index is below 256, as in
the Python code. -/
def crc16Step (crc b : Nat) : Nat :=
  (crc >>> 8) ^^^ crc16Tab.getD ((crc &&& 0xFF) ^^^ b) 0

/-- `_calc_crc16` before the final byte split: the fold of `crc16Step` over
the data, seeded at 0. -/
def calcCrc16 (data : List Nat) : Nat :=
  data.foldl crc16Step 0

/-- The value returned by `_calc_crc16`: the pair
`((crc & 0xFF), ((crc & 0xFF00) >> 8))`, i.e. low byte first, as a list. -/
def crcBytes (data : List Nat) : List Nat :=
  [calcCrc16 data &&& 0xFF, (calcCrc16 data &&& 0xFF00) >>> 8]

/-- Stream-mode (serial) framing of an outbound payload, from
`_data_exchange`: the payload followed by its CRC16, low byte first. -/
def streamEncode (payload : List Nat) : List Nat :=
  payload ++ crcBytes payload

/-- Stream-mode acceptance and stripping, from the serial receive loop of
`_data_exchange`: a buffer is accepted once it holds at least 5 bytes and
its trailing two bytes equal the CRC16 of the preceding bytes
(`rx_crc16 == list(calc_crc16(rx_data_buffer[:-2]))`); the payload is the
buffer with the two CRC bytes stripped (`rx_data_recv[:-2]`). -/
def streamDecode (frame : List Nat) : Option (List Nat) :=
  if 5 ≤ frame.length ∧
      frame.drop (frame.length - 2) = crcBytes (frame.take (frame.length - 2))
  then some (frame.take (frame.length - 2))
  else none

/-- The transaction-counter update of `_data_exchange` (Ethernet mode):
`self.transaction_number += 1; if self.transaction_number > 0xFFFF:
self.transaction_number = 0x0000`. -/
def nextTransactionNumber (tn : Nat) : Nat :=
  if tn + 1 > 0xFFFF then 0x0000 else tn + 1

/-- The counter value before the n-th packet-mode send, starting from the
freshly constructed client (`self.transaction_number = 0x0000`). -/
def txnSeq : Nat → Nat
| 0 => 0
| n + 1 => nextTransactionNumber (txnSeq n)

/-- The Modbus/TCP frame assembled by `_data_exchange` in Ethernet mode:
transaction number (high, low), two zero bytes, the payload length
(high, low), then the payload. -/
def ethFrame (tn : Nat) (txData : List Nat) : List Nat :=
  [(tn >>> 8) &&& 0xFF, tn &&& 0xFF, 0x00, 0x00,
   (txData.length >>> 8) &&& 0xFF, txData.length &&& 0xFF] ++ txData

/-- Removal of the leading Modbus/TCP transport header in `_data_exchange`:
with at least 9 received bytes and the length field at offsets 4-5 matching
(`rx_array_len == rx_modbus_length_field + 6`), the first six bytes are
stripped; otherwise `rx_data_shft` keeps its initial value `[]`. -/
def stripModbus (rx : List Nat) : List Nat :=
  if 9 ≤ rx.length ∧ rx.length = rx.getD 4 0 * 256 + rx.getD 5 0 + 6
  then rx.drop 6
  else []

/-- The reply-classification block of `_data_exchange`:
`rx_function_code = rx_data_shft[1]` (an `IndexError` when the stripped
reply is too short), then the four branches on the function code.  The
write branch (0x42) compares the complete received bytes with the complete
sent frame. -/
def classify (txArray rxRecv rxShft : List Nat) (txFc : Nat) :
    Except PyError Nat :=
  match rxShft[1]? with
  | none => .error .indexError
  | some fc =>
    if fc = 0x41 then .ok 0x00
    else if fc = 0x42 then .ok (if rxRecv ≠ txArray then 0xC6 else 0x00)
    else if fc = txFc + 0x80 then
      match rxShft[2]? with
      | none => .error .indexError
      | some e => .ok e
    else .ok 0xFF

/-- Result of one call of `_data_exchange` in Ethernet mode:
the updated `self.transaction_number`, the frame handed to
`socket.send` (`none` when the length check raised before any transport
use), and the returned `(exception_code, rx_data_shft)` pair or the Python
exception that escaped. -/
structure EthExchange : Type where
  newCounter : Nat
  sent : Option (List Nat)
  result : Except PyError (Nat × List Nat)

/-- The branchy tail of `_data_exchange` (Ethernet): payload length check
(`ValueError` for length at most 4 or at least 253), transport send
(0xC4 timeout / 0xC3 error), transport receive (0xC5 timeout / 0xC2
error), Modbus header strip, then classification. -/
def dataExchangeEthResult (tn : Nat) (txData : List Nat)
    (s : SendOutcome) (r : RecvOutcome) : Except PyError (Nat × List Nat) :=
  if txData.length ≤ 4 ∨ 253 ≤ txData.length then .error .valueError
  else
    let txArray := ethFrame tn txData
    let txFc := txArray.getD 7 0x00
    match s with
    | .timeout => .ok (0xC4, [])
    | .err => .ok (0xC3, [])
    | .ok =>
      match r with
      | .timeout => .ok (0xC5, [])
      | .err => .ok (0xC2, [])
      | .bytes rx =>
        let rxShft := stripModbus rx
        (classify txArray rx rxShft txFc).map (fun c => (c, rxShft))

/-- `_data_exchange` in Ethernet mode.  The counter is updated before the
length check, exactly as in the source, so `newCounter` advances on every
call; `sent` is the frame handed to the socket, `none` when the length
check raised first. -/
def dataExchangeEth (tn : Nat) (txData : List Nat)
    (s : SendOutcome) (r : RecvOutcome) : EthExchange :=
  { newCounter := nextTransactionNumber tn
    sent := if txData.length ≤ 4 ∨ 253 ≤ txData.length then none
            else some (ethFrame tn txData)
    result := dataExchangeEthResult tn txData s r }

/-- Result of one call of `_data_exchange` in serial mode: the frame handed
to `Serial.write` and the returned pair or escaped exception. -/
structure SerExchange : Type where
  sent : List Nat
  result : Except PyError (Nat × List Nat)

/-- `_data_exchange` in serial mode: the frame is the payload with its
CRC16 appended, the receive loop yields an accepted buffer or a
timeout/error with the partial buffer, the two CRC bytes are stripped
(`rx_data_recv[:-2]`), then classification runs. -/
def dataExchangeSer (txData : List Nat)
    (s : SendOutcome) (r : SerRecvOutcome) : SerExchange :=
  let txArray := streamEncode txData
  let txFc := txArray.getD 1 0x00
  { sent := txArray
    result :=
      match s with
      | .timeout => .ok (0xC4, [])
      | .err => .ok (0xC3, [])
      | .ok =>
        match r with
        | .timeout buffered => .ok (0xC5, buffered)
        | .err buffered => .ok (0xC2, buffered)
        | .accepted rx =>
          let rxShft := rx.take (rx.length - 2)
          (classify txArray rx rxShft txFc).map (fun c => (c, rxShft)) }

/-- The acceptance condition of the serial receive loop: at least 5 bytes
buffered and the trailing two bytes equal to the CRC16 of the rest.  Only
buffers satisfying this can reach the `accepted` outcome. -/
def serialAccepts (rx : List Nat) : Prop :=
  5 ≤ rx.length ∧ rx.drop (rx.length - 2) = crcBytes (rx.take (rx.length - 2))

/-- The request payload built by `read_integer` (also `read_float`,
`read_string`, `read_ip_addr`): `[0x0A, 0x41, paramHi, paramLo, 0x00,
0x01]`. -/
def readRequestTx (parameter : Nat) : List Nat :=
  [0x0A, 0x41, (parameter >>> 8) &&& 0xFF, parameter &&& 0xFF, 0x00, 0x01]

/-- `struct.unpack("!i", ...)` on exactly four bytes: big-endian signed
32-bit decoding. -/
def unpackI32be (bs : List Nat) : Int :=
  let u : Nat := bs.getD 0 0 * 16777216 + bs.getD 1 0 * 65536 +
    bs.getD 2 0 * 256 + bs.getD 3 0
  if u < 2 ^ 31 then (u : Int) else (u : Int) - 2 ^ 32

/-- The decoding tail of `read_integer`: the value is decoded from
`rx_data[3:]` only when the exception code is 0 and the reply payload has
length 7; otherwise `rx_data_int` keeps its initial value 0. -/
def readIntegerPost (code : Nat) (rxData : List Nat) : Nat × Int :=
  (code, if code = 0 ∧ rxData.length = 7 then unpackI32be (rxData.drop 3)
         else 0)

/-- `read_integer` over the Ethernet transport: build the read request,
run `_data_exchange`, decode. -/
def readIntegerEth (tn parameter : Nat) (s : SendOutcome) (r : RecvOutcome) :
    Except PyError (Nat × Int) :=
  ((dataExchangeEth tn (readRequestTx parameter) s r).result).map
    (fun p => readIntegerPost p.1 p.2)

/-- `struct.pack("!i", v)`: big-endian signed 32-bit encoding; values
outside the signed 32-bit range raise `struct.error`. -/
def packI32be (v : Int) : Except PyError (List Nat) :=
  if -(2 ^ 31) ≤ v ∧ v < 2 ^ 31 then
    let u : Nat := (Int.emod v (2 ^ 32)).toNat
    .ok [(u >>> 24) &&& 0xFF, (u >>> 16) &&& 0xFF, (u >>> 8) &&& 0xFF,
         u &&& 0xFF]
  else .error .structError

/-- The request payload built by `write_integer`: `[0x0A, 0x42, paramHi,
paramLo]` followed by the four bytes of `pack("!i", value)`. -/
def writeIntegerTx (parameter : Nat) (value : Int) :
    Except PyError (List Nat) :=
  (packI32be value).map
    (fun bs => [0x0A, 0x42, (parameter >>> 8) &&& 0xFF,
                parameter &&& 0xFF] ++ bs)

/-- `write_integer` over the Ethernet transport: build the request, run
`_data_exchange`, and return only the exception code. -/
def writeIntegerEth (tn parameter : Nat) (value : Int)
    (s : SendOutcome) (r : RecvOutcome) : Except PyError Nat :=
  match writeIntegerTx parameter value with
  | .error e => .error e
  | .ok tx => ((dataExchangeEth tn tx s r).result).map (fun p => p.1)

/-- A Python value handed to a public operation, as far as the modelled
operations inspect it: an `int`, a `bool`, or a value of some other class
(`float`, `str`, ...). -/
inductive PyVal : Type
| int (i : Int)
| bool (b : Bool)
| other
deriving DecidableEq

/-- Python `isinstance(value, int)`.  `bool` is a subclass of `int` in
Python, so booleans pass this check. -/
def isinstanceInt : PyVal → Bool
| .int _ => true
| .bool _ => true
| .other => false

/-- The integer a `PyVal` stands for in arithmetic (`True == 1`,
`False == 0` in Python); only meaningful when `isinstanceInt` holds. -/
def pyIntValue : PyVal → Int
| .int i => i
| .bool b => if b then 1 else 0
| .other => 0

/-- The power-setpoint parameter number `PNUM_POWER_SETPOINT`. -/
def PNUM_POWER_SETPOINT : Nat := 1206

/-- The generator-status parameter number `PNUM_STATE`. -/
def PNUM_STATE : Nat := 8000

/-- `set_power_setpoint_watts` up to the hand-off to `_data_exchange`:
the `isinstance` check returns 0x04 for non-integers (`Sum.inl`), and
otherwise `write_integer(PNUM_POWER_SETPOINT, 1000 * value)` builds the
request payload (`Sum.inr`, with the `struct.pack` exception when
`1000 * value` leaves the signed 32-bit range). -/
def setPowerSetpointWattsTx (value : PyVal) :
    Nat ⊕ Except PyError (List Nat) :=
  if isinstanceInt value then
    .inr (writeIntegerTx PNUM_POWER_SETPOINT (1000 * pyIntValue value))
  else .inl 0x04

/-- `set_power_setpoint_watts` over the Ethernet transport. -/
def setPowerSetpointWatts (tn : Nat) (value : PyVal)
    (s : SendOutcome) (r : RecvOutcome) : Except PyError Nat :=
  if isinstanceInt value then
    writeIntegerEth tn PNUM_POWER_SETPOINT (1000 * pyIntValue value) s r
  else .ok 0x04

/-- `get_power_setpoint_watts` over the Ethernet transport:
`read_integer(PNUM_POWER_SETPOINT)` then `int(value / 1000)`.  Python
evaluates `value / 1000` in floating point and truncates toward zero;
for every value `read_integer` can produce (a signed 32-bit integer or 0)
the double division is close enough to the exact quotient that the
truncation equals exact truncating division, i.e. `Int.tdiv value 1000`. -/
def getPowerSetpointWatts (tn : Nat) (s : SendOutcome) (r : RecvOutcome) :
    Except PyError (Nat × Int) :=
  (readIntegerEth tn PNUM_POWER_SETPOINT s r).map
    (fun p => (p.1, Int.tdiv p.2 1000))

/-- The status-string mapping of `get_rf_status_string` over the
`PVAL_STATE_*` constants. -/
def rfStatusString (v : Int) : String :=
  if v = 0 then "Init"
  else if v = 1 then "RF off"
  else if v = 2 then "RF on"
  else if v = 3 then "Error"
  else if v = 4 then "Calibration"
  else if v = 5 then "Update"
  else if v = 6 then "Blocked"
  else "Undefined"

/-- `get_rf_status_string` over the Ethernet transport:
`read_integer(PNUM_STATE)` then the status-string mapping. -/
def getRfStatusString (tn : Nat) (s : SendOutcome) (r : RecvOutcome) :
    Except PyError (Nat × String) :=
  (readIntegerEth tn PNUM_STATE s r).map
    (fun p => (p.1, rfStatusString p.2))

/-- The whitespace characters stripped by Python `int(str)` (ASCII
subset). -/
def isPySpace (c : Char) : Bool :=
  c = ' ' || c = '\t' || c = '\n' || c = '\x0d' || c = '\x0b' || c = '\x0c'

/-- Digit run of a Python integer literal after its first digit: digits
with single underscores allowed between digits, accumulating the value. -/
def digitsValAux : Nat → List Char → Option Nat
| acc, [] => some acc
| acc, c :: rest =>
  if c = '_' then
    match rest with
    | [] => none
    | c2 :: rest2 =>
      if c2.isDigit then digitsValAux (10 * acc + (c2.toNat - 48)) rest2
      else none
  else if c.isDigit then digitsValAux (10 * acc + (c.toNat - 48)) rest
  else none

/-- Digit run of a Python integer literal: a nonempty digit sequence with
single underscores between digits. -/
def digitsVal : List Char → Option Nat
| [] => none
| c :: rest =>
  if c.isDigit then digitsValAux (c.toNat - 48) rest else none

/-- Python `str.strip()` over the `int()` whitespace set. -/
def pyStrip (s : List Char) : List Char :=
  ((s.dropWhile isPySpace).reverse.dropWhile isPySpace).reverse

/-- Python `int(str)` in base 10 (`none` models the `ValueError`):
surrounding whitespace is stripped, one optional sign is allowed, then a
nonempty digit run with single underscores between digits. -/
def pyIntParse (s : List Char) : Option Int :=
  match pyStrip s with
  | '+' :: rest => (digitsVal rest).map (fun n => (n : Int))
  | '-' :: rest => (digitsVal rest).map (fun n => -(n : Int))
  | rest => (digitsVal rest).map (fun n => (n : Int))

/-- Python `str.split(".")` restricted to the single-character separator:
splits at every dot, keeping empty pieces, and yields `[[]]` on the empty
string. -/
def splitOnDot : List Char → List (List Char)
| [] => [[]]
| '.' :: rest => [] :: splitOnDot rest
| c :: rest =>
  match splitOnDot rest with
  | [] => [[c]]
  | h :: t => (c :: h) :: t

/-- `struct.pack("!I", n)` for `n` already checked to be below `2^32`:
big-endian unsigned 32-bit encoding. -/
def u32beBytes (n : Nat) : List Nat :=
  [(n >>> 24) &&& 0xFF, (n >>> 16) &&& 0xFF, (n >>> 8) &&& 0xFF, n &&& 0xFF]

/-- `write_ip_addr` up to the hand-off to `_data_exchange`: split the
string at dots; return 0x04 (`Sum.inl`) unless there are exactly four
pieces, each parses with Python `int`, and each value lies in `[0, 255]`;
otherwise pack the four values into a big-endian unsigned 32-bit integer
and build the `[0x0A, 0x42, paramHi, paramLo]` write request
(`Sum.inr`). -/
def writeIpAddrTx (parameter : Nat) (value : List Char) :
    Nat ⊕ List Nat :=
  let ipArray := splitOnDot value
  if ipArray.length ≠ 4 then .inl 0x04
  else
    match pyIntParse (ipArray.getD 0 []), pyIntParse (ipArray.getD 1 []),
        pyIntParse (ipArray.getD 2 []), pyIntParse (ipArray.getD 3 []) with
    | some b1, some b2, some b3, some b4 =>
      if 0 ≤ b1 ∧ b1 ≤ 255 ∧ 0 ≤ b2 ∧ b2 ≤ 255 ∧ 0 ≤ b3 ∧ b3 ≤ 255 ∧
          0 ≤ b4 ∧ b4 ≤ 255 then
        let ipValueInt : Nat :=
          b1.toNat * 16777216 + b2.toNat * 65536 + b3.toNat * 256 + b4.toNat
        .inr ([0x0A, 0x42, (parameter >>> 8) &&& 0xFF,
               parameter &&& 0xFF] ++ u32beBytes ipValueInt)
      else .inl 0x04
    | _, _, _, _ => .inl 0x04

/-- `__init__`: the determination of `self.host_mode` from the `host_mode`
argument and the host address.  `Except.ok none` models the path where
the constructor returns without assigning `self.host_mode` at all (a
"COM" address whose port number parses but is outside `(0, 255]`);
`Except.error` models the `ValueError` raised on an explicit unknown
mode. -/
def initHostMode (hostMode : Option Nat) (hostAddr : List Char) :
    Except PyError (Option Nat) :=
  match hostMode with
  | some m =>
    if m = 0 then .ok (some 0)
    else if m = 1 then .ok (some 1)
    else .error .valueError
  | none =>
    if (hostAddr.take 3).map Char.toUpper ≠ ['C', 'O', 'M'] then .ok (some 0)
    else
      match pyIntParse (hostAddr.drop 3) with
      | none => .ok (some 0)
      | some n => if 0 < n ∧ n ≤ 255 then .ok (some 1) else .ok none

/-- Outcome of the underlying connection attempt inside `open()`:
success, a timeout, or any other failure. -/
inductive ConnectOutcome : Type
| success
| timeout
| failure
deriving DecidableEq

/-- The boolean `open()` produces from a connection attempt: `True` on
success, `False` both in the timeout branch and in the catch-all
exception branch. -/
def connectBool : ConnectOutcome → Bool
| .success => true
| .timeout => false
| .failure => false

/-- `open()`: Ethernet and serial branches return `True` on success and
`False` on a timeout or any other exception; an unset `self.host_mode`
raises `AttributeError` at the first comparison, and any other mode value
would reach the `ValueError` branch. -/
def openCito (hostMode : Option Nat) (c : ConnectOutcome) :
    Except PyError Bool :=
  match hostMode with
  | none => .error .attributeError
  | some m =>
    if m = 0 then .ok (connectBool c)
    else if m = 1 then .ok (connectBool c)
    else .error .valueError

/-- Following the words of claim C6, not the source: a string of the form
"four dot-separated decimal octets each in [0, 255]". -/
def decimalDigitsVal (f : List Char) : Nat :=
  f.foldl (fun a c => 10 * a + (c.toNat - 48)) 0

/-- Following the words of claim C6, not the source: a nonempty all-digit
piece whose decimal value is at most 255. -/
def isDecimalOctet (f : List Char) : Bool :=
  (f ≠ [] : Bool) && f.all Char.isDigit && decimalDigitsVal f ≤ 255

/-- Following the words of claim C6, not the source: a valid IPv4 string
is four dot-separated decimal octets each in `[0, 255]`. -/
def claimValidIPv4 (s : List Char) : Bool :=
  (splitOnDot s).length = 4 && (splitOnDot s).all isDecimalOctet

/-- One dot-separated piece as the code itself validates it: it parses
with Python `int` and the value lies in `[0, 255]`. -/
def ipartOk (f : List Char) : Bool :=
  match pyIntParse f with
  | some v => decide (0 ≤ v ∧ v ≤ 255)
  | none => false

/-- The validation `write_ip_addr` actually performs: exactly four
dot-separated pieces, each passing `ipartOk`. -/
def codeValidIPv4 (s : List Char) : Bool :=
  ((splitOnDot s).length = 4 : Bool) &&
    ipartOk ((splitOnDot s).getD 0 []) && ipartOk ((splitOnDot s).getD 1 []) &&
    ipartOk ((splitOnDot s).getD 2 []) && ipartOk ((splitOnDot s).getD 3 [])

/-! ### Helper lemmas -/

theorem crcBytes_length (d : List Nat) : (crcBytes d).length = 2 := rfl

theorem streamEncode_length (p : List Nat) :
    (streamEncode p).length = p.length + 2 := by
  simp [streamEncode, crcBytes]

theorem streamEncode_take (p : List Nat) :
    (streamEncode p).take p.length = p := by
  simp [streamEncode, List.take_left]

theorem streamEncode_drop (p : List Nat) :
    (streamEncode p).drop p.length = crcBytes p := by
  simp [streamEncode, List.drop_left]

theorem txnSeq_mod (n : Nat) : txnSeq n = n % 65536 := by
  induction n with
  | zero => rfl
  | succ n ih =>
    show nextTransactionNumber (txnSeq n) = (n + 1) % 65536
    rw [ih]
    unfold nextTransactionNumber
    split <;> omega

theorem dataExchangeEth_newCounter (tn : Nat) (d : List Nat)
    (s : SendOutcome) (r : RecvOutcome) :
    (dataExchangeEth tn d s r).newCounter = nextTransactionNumber tn := rfl

theorem recompose32 (u : Nat) (h : u < 2 ^ 32) :
    ((u >>> 24) &&& 0xFF) * 16777216 + ((u >>> 16) &&& 0xFF) * 65536 +
      ((u >>> 8) &&& 0xFF) * 256 + (u &&& 0xFF) = u := by
  have h255 : (0xFF : Nat) = 2 ^ 8 - 1 := rfl
  simp only [h255, Nat.and_pow_two_sub_one_eq_mod, Nat.shiftRight_eq_div_pow]
  have e24 : (2 : Nat) ^ 24 = 16777216 := by norm_num
  have e16 : (2 : Nat) ^ 16 = 65536 := by norm_num
  have e8 : (2 : Nat) ^ 8 = 256 := by norm_num
  have e32 : (2 : Nat) ^ 32 = 4294967296 := by norm_num
  rw [e24, e16, e8, e32] at *
  omega

theorem packI32be_unpack (v : Int) (hlo : -(2 ^ 31) ≤ v) (hhi : v < 2 ^ 31) :
    ∃ bs, packI32be v = .ok bs ∧ unpackI32be bs = v := by
  refine ⟨[(((Int.emod v (2 ^ 32)).toNat >>> 24) &&& 0xFF),
           (((Int.emod v (2 ^ 32)).toNat >>> 16) &&& 0xFF),
           (((Int.emod v (2 ^ 32)).toNat >>> 8) &&& 0xFF),
           ((Int.emod v (2 ^ 32)).toNat &&& 0xFF)], ?_, ?_⟩
  · unfold packI32be
    rw [if_pos ⟨hlo, hhi⟩]
  · set u := (Int.emod v (2 ^ 32)).toNat with hu
    have humod : (u : Int) = v % (2 ^ 32 : Int) := by
      rw [hu]
      exact Int.toNat_of_nonneg (Int.emod_nonneg v (by norm_num))
    have hult : u < 2 ^ 32 := by
      have h1 := Int.emod_lt_of_pos v (show (0 : Int) < 2 ^ 32 by norm_num)
      omega
    unfold unpackI32be
    simp only [List.getD_cons_zero, List.getD_cons_succ]
    rw [recompose32 u hult]
    split <;> omega

theorem isDigit_not_pySpace (c : Char) (h : c.isDigit = true) :
    isPySpace c = false := by
  unfold isPySpace
  by_contra hs
  simp only [Bool.not_eq_false, Bool.or_eq_true, decide_eq_true_eq] at hs
  rcases hs with ((((h1 | h2) | h3) | h4) | h5) | h6 <;> subst_eqs

theorem dropWhile_pySpace_of_all_digit (l : List Char)
    (h : l.all Char.isDigit = true) : l.dropWhile isPySpace = l := by
  cases l with
  | nil => rfl
  | cons c t =>
    simp only [List.all_cons, Bool.and_eq_true] at h
    rw [List.dropWhile_cons, isDigit_not_pySpace c h.1]
    simp

theorem pyStrip_of_all_digit (l : List Char) (h : l.all Char.isDigit = true) :
    pyStrip l = l := by
  unfold pyStrip
  rw [dropWhile_pySpace_of_all_digit l h,
    dropWhile_pySpace_of_all_digit l.reverse (by rw [List.all_reverse]; exact h)]
  exact List.reverse_reverse l

theorem digitsValAux_all_digit (rest : List Char) :
    ∀ acc, rest.all Char.isDigit = true →
      digitsValAux acc rest =
        some (rest.foldl (fun a c => 10 * a + (c.toNat - 48)) acc) := by
  induction rest with
  | nil => intro acc _; rfl
  | cons c t ih =>
    intro acc h
    simp only [List.all_cons, Bool.and_eq_true] at h
    obtain ⟨hc, ht⟩ := h
    have hne : c ≠ '_' := by
      intro hcu
      subst hcu
      exact absurd hc (by decide)
    unfold digitsValAux
    rw [if_neg hne]
    simp only [hc, if_true]
    rw [ih _ ht]
    simp [List.foldl_cons]

theorem digitsVal_all_digit (l : List Char) (hne : l ≠ [])
    (h : l.all Char.isDigit = true) :
    digitsVal l = some (decimalDigitsVal l) := by
  cases l with
  | nil => exact absurd rfl hne
  | cons c t =>
    simp only [List.all_cons, Bool.and_eq_true] at h
    obtain ⟨hc, ht⟩ := h
    unfold digitsVal
    simp only [hc, if_true]
    rw [digitsValAux_all_digit t _ ht]
    simp [decimalDigitsVal]

theorem pyIntParse_digits (l : List Char) (hne : l ≠ [])
    (h : l.all Char.isDigit = true) :
    pyIntParse l = some ((decimalDigitsVal l : Nat) : Int) := by
  unfold pyIntParse
  rw [pyStrip_of_all_digit l h]
  split
  · next rest =>
      simp only [List.all_cons, Bool.and_eq_true] at h
      exact absurd h.1 (by decide)
  · next rest =>
      simp only [List.all_cons, Bool.and_eq_true] at h
      exact absurd h.1 (by decide)
  · rw [digitsVal_all_digit l hne h]
    rfl

theorem u32beBytes_octets (b1 b2 b3 b4 : Nat) (h1 : b1 ≤ 255)
    (h2 : b2 ≤ 255) (h3 : b3 ≤ 255) (h4 : b4 ≤ 255) :
    u32beBytes (b1 * 16777216 + b2 * 65536 + b3 * 256 + b4) =
      [b1, b2, b3, b4] := by
  unfold u32beBytes
  have h255 : (0xFF : Nat) = 2 ^ 8 - 1 := rfl
  simp only [h255, Nat.and_pow_two_sub_one_eq_mod, Nat.shiftRight_eq_div_pow]
  have e24 : (2 : Nat) ^ 24 = 16777216 := by norm_num
  have e16 : (2 : Nat) ^ 16 = 65536 := by norm_num
  have e8 : (2 : Nat) ^ 8 = 256 := by norm_num
  rw [e24, e16, e8]
  simp only [List.cons.injEq, and_true]
  exact ⟨by omega, by omega, by omega, by omega⟩

theorem ipartOk_elim (f : List Char) (h : ipartOk f = true) :
    ∃ v : Int, pyIntParse f = some v ∧ 0 ≤ v ∧ v ≤ 255 := by
  unfold ipartOk at h
  split at h
  · next v heq =>
      simp only [decide_eq_true_eq] at h
      exact ⟨v, heq, h.1, h.2⟩
  · simp at h

theorem initHostMode_shape (hm : Option Nat) (addr : List Char)
    (res : Option Nat) (h : initHostMode hm addr = .ok res) :
    res = none ∨ res = some 0 ∨ res = some 1 := by
  cases hm with
  | some m =>
    simp only [initHostMode] at h
    split at h
    · injection h with h'
      exact Or.inr (Or.inl h'.symm)
    · split at h
      · injection h with h'
        exact Or.inr (Or.inr h'.symm)
      · exact absurd h (by simp)
  | none =>
    simp only [initHostMode] at h
    split at h
    · injection h with h'
      exact Or.inr (Or.inl h'.symm)
    · split at h
      · injection h with h'
        exact Or.inr (Or.inl h'.symm)
      · split at h
        · injection h with h'
          exact Or.inr (Or.inr h'.symm)
        · injection h with h'
          exact Or.inl h'.symm

end Cito

/-! ### Claim theorems -/

namespace Cito

/-- C1 (code bug): the spec's propagation policy says a malformed
packet-mode reply (too short, or with a length field not matching the
received byte count) yields a returned non-zero exception code, but in
both cases `_data_exchange` leaves `rx_data_shft = []` and then evaluates
`rx_data_shft[1]`, raising an uncaught `IndexError` that escapes through
`read_integer` and every other public operation.  First conjunct: a
3-byte reply to a `read_integer(8000)` request; second conjunct: a 9-byte
reply whose length field (0x63) does not match the 9 received bytes. -/
theorem c1_malformed_reply_raises :
    (dataExchangeEth 0 (readRequestTx 8000) .ok
        (.bytes [0x00, 0x00, 0x00])).result = .error .indexError ∧
    (dataExchangeEth 0 (readRequestTx 8000) .ok
        (.bytes [0x00, 0x00, 0x00, 0x00, 0x00, 0x63, 0x0A, 0x41,
                 0x00])).result = .error .indexError :=
  ⟨rfl, rfl⟩

/-- C2 (counterexample): the stream-mode round trip fails for the empty
payload, because the serial receive loop only ever accepts a buffer of at
least 5 bytes, and the encoding of `[]` is the 2-byte frame `[0, 0]`. -/
theorem c2_roundtrip_counterexample :
    streamDecode (streamEncode []) ≠ some [] := by
  decide

/-- C2 (amended): the CRC16 is a deterministic function matching the
CRC-16/ARC reference vector (checksum of the ASCII bytes of
"123456789" is 0xBB3D), and the stream-mode round trip
`streamDecode (streamEncode p) = some p` holds for every payload of at
least 3 bytes (shorter payloads produce frames below the 5-byte
acceptance threshold of the receive loop). -/
theorem c2_stream_roundtrip_amended :
    (∀ p : List Nat, 3 ≤ p.length → streamDecode (streamEncode p) = some p) ∧
    calcCrc16 [0x31, 0x32, 0x33, 0x34, 0x35, 0x36, 0x37, 0x38, 0x39] =
      0xBB3D := by
  refine ⟨fun p h => ?_, rfl⟩
  have hsub : (streamEncode p).length - 2 = p.length := by
    rw [streamEncode_length]
    omega
  unfold streamDecode
  rw [hsub, streamEncode_take, streamEncode_drop, if_pos]
  exact ⟨by rw [streamEncode_length]; omega, rfl⟩

/-- C2 witness: the amended round trip at the concrete payload
`[1, 2, 3]`. -/
theorem c2_stream_roundtrip_amended_witness :
    streamDecode (streamEncode [1, 2, 3]) = some [1, 2, 3] :=
  c2_stream_roundtrip_amended.1 [1, 2, 3] (by decide)

/-- C3: starting from the freshly constructed client, the counter used by
the n-th packet-mode send is `n % 0x10000` (so 0x10000 consecutive sends
use ids 0x0000..0xFFFF in order, without gaps or repeats, and then wrap
to 0x0000), the counter always stays at most 0xFFFF, and every call of
`_data_exchange` in Ethernet mode advances the counter to the value used
by the next send. -/
theorem c3_transaction_sequencing :
    ∀ n : Nat, txnSeq n = n % 0x10000 ∧ txnSeq n ≤ 0xFFFF ∧
      ∀ (d : List Nat) (s : SendOutcome) (r : RecvOutcome),
        (dataExchangeEth (txnSeq n) d s r).newCounter = txnSeq (n + 1) := by
  intro n
  refine ⟨txnSeq_mod n, ?_, fun d s r => rfl⟩
  rw [txnSeq_mod]
  omega

/-- C4: in Ethernet mode a payload of length at most 4 or at least 253 is
rejected (a `ValueError`, with nothing handed to the transport and the
outcome independent of any transport behaviour), and a payload of length
in `[5, 252]` is framed as
`[txIdHi, txIdLo, 0x00, 0x00, lenHi, lenLo] ++ payload`. -/
theorem c4_packet_encode_bounds :
    ∀ (tn : Nat) (d : List Nat) (s : SendOutcome) (r : RecvOutcome),
      ((d.length ≤ 4 ∨ 253 ≤ d.length) →
        (dataExchangeEth tn d s r).sent = none ∧
        (dataExchangeEth tn d s r).result = .error .valueError) ∧
      (5 ≤ d.length → d.length ≤ 252 →
        (dataExchangeEth tn d s r).sent =
          some ([(tn >>> 8) &&& 0xFF, tn &&& 0xFF, 0x00, 0x00,
                 (d.length >>> 8) &&& 0xFF, d.length &&& 0xFF] ++ d)) := by
  intro tn d s r
  constructor
  · intro h
    constructor
    · show (if d.length ≤ 4 ∨ 253 ≤ d.length then none
            else some (ethFrame tn d)) = none
      rw [if_pos h]
    · show dataExchangeEthResult tn d s r = .error .valueError
      unfold dataExchangeEthResult
      rw [if_pos h]
  · intro h5 h252
    show (if d.length ≤ 4 ∨ 253 ≤ d.length then none
          else some (ethFrame tn d)) = _
    rw [if_neg (by omega)]
    rfl

/-- C4 witness: the 3-byte payload `[1, 2, 3]` is rejected before any
transport interaction, and the 6-byte read request for parameter 8000 is
framed exactly as claimed. -/
theorem c4_packet_encode_bounds_witness :
    ((dataExchangeEth 0 [1, 2, 3] .ok .timeout).sent = none ∧
      (dataExchangeEth 0 [1, 2, 3] .ok .timeout).result =
        .error .valueError) ∧
    (dataExchangeEth 5 (readRequestTx 8000) .ok .timeout).sent =
      some ([(5 >>> 8) &&& 0xFF, 5 &&& 0xFF, 0x00, 0x00,
             ((readRequestTx 8000).length >>> 8) &&& 0xFF,
             (readRequestTx 8000).length &&& 0xFF] ++ readRequestTx 8000) :=
  ⟨(c4_packet_encode_bounds 0 [1, 2, 3] .ok .timeout).1 (by decide),
   (c4_packet_encode_bounds 5 (readRequestTx 8000) .ok .timeout).2
     (by decide) (by decide)⟩

/-- C5: in both transport modes, a completed write transaction whose
stripped reply carries function code 0x42 is classified as success
(exception code 0x00) exactly when the full received bytes equal the full
sent frame, and as 0xC6 otherwise. -/
theorem c5_write_echo_classification :
    ∀ (tn : Nat) (d rx rx2 : List Nat),
      (5 ≤ d.length → d.length ≤ 252 → 9 ≤ rx.length →
        rx.length = rx.getD 4 0 * 256 + rx.getD 5 0 + 6 →
        rx[7]? = some 0x42 →
        (dataExchangeEth tn d .ok (.bytes rx)).result =
          .ok (if rx = ethFrame tn d then 0x00 else 0xC6, rx.drop 6)) ∧
      (serialAccepts rx2 → (rx2.take (rx2.length - 2))[1]? = some 0x42 →
        (dataExchangeSer d .ok (.accepted rx2)).result =
          .ok (if rx2 = streamEncode d then 0x00 else 0xC6,
               rx2.take (rx2.length - 2))) := by
  intro tn d rx rx2
  constructor
  · intro h5 h252 h9 hlen hfc
    have hstrip : stripModbus rx = rx.drop 6 := by
      unfold stripModbus
      rw [if_pos ⟨h9, hlen⟩]
    show dataExchangeEthResult tn d .ok (.bytes rx) = _
    unfold dataExchangeEthResult
    rw [if_neg (by omega)]
    show (classify (ethFrame tn d) rx (stripModbus rx) _).map _ = _
    rw [hstrip]
    have h7 : (List.drop 6 rx)[1]? = some 0x42 := by
      rw [List.getElem?_drop]
      exact hfc
    unfold classify
    rw [h7]
    by_cases h : rx = ethFrame tn d
    · simp [h, Except.map]
    · simp [h, Except.map]
  · intro hacc hfc
    show (classify (streamEncode d) rx2 (rx2.take (rx2.length - 2)) _).map _
      = _
    unfold classify
    rw [hfc]
    by_cases h : rx2 = streamEncode d
    · simp [h, Except.map]
    · simp [h, Except.map]

/-- C5 witness: a write of `30*1000` to parameter 1206 echoed back exactly
in each mode.  The Ethernet reply is the echoed Modbus frame (classified
0x00); the serial reply is the echoed CRC-framed write request. -/
theorem c5_write_echo_classification_witness :
    (dataExchangeEth 0 [0x0A, 0x42, 0x04, 0xB6, 0x00, 0x00, 0x75, 0x30] .ok
        (.bytes ([0x00, 0x00, 0x00, 0x00, 0x00, 0x08] ++
          [0x0A, 0x42, 0x04, 0xB6, 0x00, 0x00, 0x75, 0x30]))).result =
      .ok (if ([0x00, 0x00, 0x00, 0x00, 0x00, 0x08] ++
              [0x0A, 0x42, 0x04, 0xB6, 0x00, 0x00, 0x75, 0x30] : List Nat) =
            ethFrame 0 [0x0A, 0x42, 0x04, 0xB6, 0x00, 0x00, 0x75, 0x30]
          then 0x00 else 0xC6,
          ([0x00, 0x00, 0x00, 0x00, 0x00, 0x08] ++
            [0x0A, 0x42, 0x04, 0xB6, 0x00, 0x00, 0x75, 0x30] :
            List Nat).drop 6) ∧
    (dataExchangeSer [0x0A, 0x42, 0x04, 0xB6, 0x00, 0x00, 0x75, 0x30] .ok
        (.accepted (streamEncode
          [0x0A, 0x42, 0x04, 0xB6, 0x00, 0x00, 0x75, 0x30]))).result =
      .ok (if streamEncode [0x0A, 0x42, 0x04, 0xB6, 0x00, 0x00, 0x75, 0x30] =
            streamEncode [0x0A, 0x42, 0x04, 0xB6, 0x00, 0x00, 0x75, 0x30]
          then 0x00 else 0xC6,
          (streamEncode
            [0x0A, 0x42, 0x04, 0xB6, 0x00, 0x00, 0x75, 0x30]).take
            ((streamEncode
              [0x0A, 0x42, 0x04, 0xB6, 0x00, 0x00, 0x75, 0x30]).length -
              2)) := by
  constructor
  · exact (c5_write_echo_classification 0
      [0x0A, 0x42, 0x04, 0xB6, 0x00, 0x00, 0x75, 0x30]
      ([0x00, 0x00, 0x00, 0x00, 0x00, 0x08] ++
        [0x0A, 0x42, 0x04, 0xB6, 0x00, 0x00, 0x75, 0x30])
      (streamEncode [0x0A, 0x42, 0x04, 0xB6, 0x00, 0x00, 0x75, 0x30])).1
      (by decide) (by decide) (by decide) (by decide) (by decide)
  · exact (c5_write_echo_classification 0
      [0x0A, 0x42, 0x04, 0xB6, 0x00, 0x00, 0x75, 0x30]
      ([0x00, 0x00, 0x00, 0x00, 0x00, 0x08] ++
        [0x0A, 0x42, 0x04, 0xB6, 0x00, 0x00, 0x75, 0x30])
      (streamEncode [0x0A, 0x42, 0x04, 0xB6, 0x00, 0x00, 0x75, 0x30])).2
      (by constructor <;> decide) (by decide)

/-- C9: a Python boolean is an instance of `int`, so
`set_power_setpoint_watts` does not reject it with 0x04: it writes
`1000 * True = 1000` and `1000 * False = 0` to the power-setpoint
parameter 1206 (0x04B6), big-endian. -/
theorem c9_bool_accepted :
    ∀ b : Bool, setPowerSetpointWattsTx (.bool b) ≠ .inl 0x04 ∧
      setPowerSetpointWattsTx (.bool b) =
        .inr (.ok ([0x0A, 0x42, 0x04, 0xB6] ++
          (if b then [0x00, 0x00, 0x03, 0xE8]
           else [0x00, 0x00, 0x00, 0x00]))) := by
  intro b
  cases b
  · exact ⟨(fun h => nomatch h), rfl⟩
  · exact ⟨(fun h => nomatch h), rfl⟩

/-- C10: whenever the underlying `_data_exchange` of
`read_integer(PNUM_STATE)` returns a non-zero exception code,
`read_integer` leaves the decoded value at its default 0, and
`get_rf_status_string` therefore pairs that exception code with the
string "Init" (the 0 mapping), not "Undefined" or an empty string. -/
theorem c10_status_init_on_error :
    ∀ (tn : Nat) (s : SendOutcome) (r : RecvOutcome) (code : Nat)
      (d : List Nat),
      (dataExchangeEth tn (readRequestTx PNUM_STATE) s r).result =
        .ok (code, d) →
      code ≠ 0 →
      getRfStatusString tn s r = .ok (code, "Init") := by
  intro tn s r code d hres hcode
  unfold getRfStatusString readIntegerEth
  rw [hres]
  simp [Except.map, readIntegerPost, hcode, rfStatusString]

/-- C10 witness: a read timeout (code 0xC5) yields `(0xC5, "Init")`. -/
theorem c10_status_init_on_error_witness :
    getRfStatusString 0 .ok .timeout = .ok (0xC5, "Init") :=
  c10_status_init_on_error 0 .ok .timeout 0xC5 [] rfl (by decide)

/-- C8: for any client the constructor actually produced, `open()` never
reaches its `ValueError` branch, and when the constructor assigned a host
mode at all, that mode is one of the two valid ones and `open()` returns
a boolean (true exactly on connection success) without raising. -/
theorem c8_open_never_raises :
    ∀ (hm : Option Nat) (addr : List Char) (res : Option Nat),
      initHostMode hm addr = .ok res →
      (∀ c, openCito res c ≠ .error .valueError) ∧
      ∀ m, res = some m → (m = 0 ∨ m = 1) ∧
        ∀ c, openCito res c = .ok (connectBool c) := by
  intro hm addr res h
  rcases initHostMode_shape hm addr res h with h' | h' | h' <;> subst h'
  · exact ⟨fun c hc => by simp [openCito] at hc, fun m hm' => by cases hm'⟩
  · refine ⟨fun c hc => by simp [openCito] at hc, fun m hm' => ?_⟩
    cases hm'
    exact ⟨Or.inl rfl, fun c => rfl⟩
  · refine ⟨fun c hc => by simp [openCito] at hc, fun m hm' => ?_⟩
    cases hm'
    exact ⟨Or.inr rfl, fun c => rfl⟩

/-- C8 witness: an explicitly Ethernet-constructed client, with a timing
out connection attempt: `open()` returns false and does not raise. -/
theorem c8_open_never_raises_witness :
    openCito (some 0) ConnectOutcome.timeout ≠ .error .valueError ∧
    ((0 : Nat) = 0 ∨ (0 : Nat) = 1) ∧
    openCito (some 0) ConnectOutcome.timeout =
      .ok (connectBool ConnectOutcome.timeout) := by
  have h := c8_open_never_raises (some 0) ['1', '0'] (some 0) rfl
  exact ⟨h.1 ConnectOutcome.timeout, (h.2 0 rfl).1,
         (h.2 0 rfl).2 ConnectOutcome.timeout⟩

/-- C7 (counterexample): the claim says every integer input leads to
`value * 1000` being written, but at the integer input 3000000 the
product 3000000000 leaves the signed 32-bit range of `pack("!i", ...)`,
so `struct.error` is raised out of `set_power_setpoint_watts` and no
write takes place (and the input is not an 0x04 rejection either). -/
theorem c7_overflow_counterexample :
    setPowerSetpointWattsTx (.int 3000000) = .inr (.error .structError) ∧
    setPowerSetpointWatts 0 (.int 3000000) .ok (.bytes []) =
      .error .structError :=
  ⟨rfl, rfl⟩

/-- C7 (amended): `set_power_setpoint_watts` rejects every non-integer
input with 0x04 before any transport interaction; for integer inputs
whose product `1000 * value` fits the signed 32-bit range it writes that
product (big-endian) to parameter 1206; `get_power_setpoint_watts`
divides the value decoded by `read_integer` by 1000 truncating toward
zero; and against a device echoing the write and later replying
`30 * 1000`, `set_power_setpoint_watts(30)` then
`get_power_setpoint_watts()` yields `(0, 30)`. -/
theorem c7_power_setpoint_amended :
    (∀ v : PyVal, isinstanceInt v = false →
      setPowerSetpointWattsTx v = .inl 0x04 ∧
      ∀ (tn : Nat) (s : SendOutcome) (r : RecvOutcome),
        setPowerSetpointWatts tn v s r = .ok 0x04) ∧
    (∀ i : Int, -(2 ^ 31) ≤ 1000 * i → 1000 * i < 2 ^ 31 →
      ∃ bs, packI32be (1000 * i) = .ok bs ∧ unpackI32be bs = 1000 * i ∧
        setPowerSetpointWattsTx (.int i) =
          .inr (.ok ([0x0A, 0x42, 0x04, 0xB6] ++ bs))) ∧
    (∀ (tn : Nat) (s : SendOutcome) (r : RecvOutcome) (code : Nat)
      (v : Int),
      readIntegerEth tn PNUM_POWER_SETPOINT s r = .ok (code, v) →
      getPowerSetpointWatts tn s r = .ok (code, Int.tdiv v 1000)) ∧
    (setPowerSetpointWatts 0 (.int 30) .ok
        (.bytes ([0x00, 0x00, 0x00, 0x00, 0x00, 0x08] ++
          [0x0A, 0x42, 0x04, 0xB6, 0x00, 0x00, 0x75, 0x30])) = .ok 0x00 ∧
      getPowerSetpointWatts 1 .ok
        (.bytes ([0x00, 0x00, 0x00, 0x00, 0x00, 0x07] ++
          [0x0A, 0x41, 0x04, 0x00, 0x00, 0x75, 0x30])) = .ok (0x00, 30)) := by
  refine ⟨?_, ?_, ?_, rfl, rfl⟩
  · intro v hv
    constructor
    · simp [setPowerSetpointWattsTx, hv]
    · intro tn s r
      simp [setPowerSetpointWatts, hv]
  · intro i hlo hhi
    obtain ⟨bs, hok, hun⟩ := packI32be_unpack (1000 * i) hlo hhi
    refine ⟨bs, hok, hun, ?_⟩
    have hparam : [0x0A, 0x42, (PNUM_POWER_SETPOINT >>> 8) &&& 0xFF,
        PNUM_POWER_SETPOINT &&& 0xFF] = ([0x0A, 0x42, 0x04, 0xB6] :
        List Nat) := by decide
    simp [setPowerSetpointWattsTx, isinstanceInt, pyIntValue,
      writeIntegerTx, hok, Except.map, hparam]
  · intro tn s r code v hres
    unfold getPowerSetpointWatts
    rw [hres]
    simp [Except.map]

/-- C7 witness: the amended statement at the rejected input `2.5`-like
non-integer, at the in-range integer 30, and at the mock read reply
carrying `30 * 1000`. -/
theorem c7_power_setpoint_amended_witness :
    setPowerSetpointWattsTx .other = .inl 0x04 ∧
    (∃ bs, packI32be (1000 * 30) = .ok bs ∧ unpackI32be bs = 1000 * 30 ∧
      setPowerSetpointWattsTx (.int 30) =
        .inr (.ok ([0x0A, 0x42, 0x04, 0xB6] ++ bs))) ∧
    getPowerSetpointWatts 1 .ok
        (.bytes ([0x00, 0x00, 0x00, 0x00, 0x00, 0x07] ++
          [0x0A, 0x41, 0x04, 0x00, 0x00, 0x75, 0x30])) =
      .ok (0x00, Int.tdiv 30000 1000) :=
  ⟨(c7_power_setpoint_amended.1 .other rfl).1,
   c7_power_setpoint_amended.2.1 30 (by norm_num) (by norm_num),
   c7_power_setpoint_amended.2.2.1 1 .ok
     (.bytes ([0x00, 0x00, 0x00, 0x00, 0x00, 0x07] ++
       [0x0A, 0x41, 0x04, 0x00, 0x00, 0x75, 0x30])) 0x00 30000 rfl⟩

/-- C6 (counterexample): the string " 1.2.3.4" is not four dot-separated
decimal octets (its first piece contains a space), so the claim requires
exception code 0x04 with no transport I/O; but Python `int(" 1")`
tolerates the surrounding whitespace, so `write_ip_addr` validates the
input and hands a write frame for 1.2.3.4 to the transport. -/
theorem c6_whitespace_counterexample :
    claimValidIPv4 [' ', '1', '.', '2', '.', '3', '.', '4'] = false ∧
    writeIpAddrTx 5100 [' ', '1', '.', '2', '.', '3', '.', '4'] =
      .inr [0x0A, 0x42, 0x13, 0xEC, 1, 2, 3, 4] :=
  ⟨rfl, rfl⟩

/-- C6 (amended): `write_ip_addr` returns 0x04 without transport I/O
exactly when the input fails the validation the code performs (four
dot-separated pieces, each accepted by Python `int` with a value in
`[0, 255]`): the first conjunct gives the failure direction, and the
second gives the converse — every code-accepted string, including the
whitespace-padded, signed or underscore-grouped forms Python `int`
admits, is transmitted, with its four parsed values packed as the value
bytes of the write request.  The third conjunct specialises to the
strictly valid dotted-quads of decimal octets in `[0, 255]`: their four
octets appear literally as the four value bytes. -/
theorem c6_ipv4_validation_amended :
    ∀ (param : Nat) (s : List Char),
      (codeValidIPv4 s = false → writeIpAddrTx param s = .inl 0x04) ∧
      (codeValidIPv4 s = true →
        ∃ b1 b2 b3 b4 : Int,
          pyIntParse ((splitOnDot s).getD 0 []) = some b1 ∧
          pyIntParse ((splitOnDot s).getD 1 []) = some b2 ∧
          pyIntParse ((splitOnDot s).getD 2 []) = some b3 ∧
          pyIntParse ((splitOnDot s).getD 3 []) = some b4 ∧
          0 ≤ b1 ∧ b1 ≤ 255 ∧ 0 ≤ b2 ∧ b2 ≤ 255 ∧ 0 ≤ b3 ∧ b3 ≤ 255 ∧
          0 ≤ b4 ∧ b4 ≤ 255 ∧
          writeIpAddrTx param s =
            .inr [0x0A, 0x42, (param >>> 8) &&& 0xFF, param &&& 0xFF,
                  b1.toNat, b2.toNat, b3.toNat, b4.toNat]) ∧
      (claimValidIPv4 s = true →
        ∃ o1 o2 o3 o4,
          (splitOnDot s).map decimalDigitsVal = [o1, o2, o3, o4] ∧
          o1 ≤ 255 ∧ o2 ≤ 255 ∧ o3 ≤ 255 ∧ o4 ≤ 255 ∧
          writeIpAddrTx param s =
            .inr [0x0A, 0x42, (param >>> 8) &&& 0xFF, param &&& 0xFF,
                  o1, o2, o3, o4]) := by
  intro param s
  refine ⟨?_, ?_, ?_⟩
  · intro hcv
    unfold writeIpAddrTx
    by_cases hl : (splitOnDot s).length = 4
    · rw [if_neg (by simp [hl])]
      split
      · next b1 b2 b3 b4 heq1 heq2 heq3 heq4 =>
          have hfalse : ¬(0 ≤ b1 ∧ b1 ≤ 255 ∧ 0 ≤ b2 ∧ b2 ≤ 255 ∧
              0 ≤ b3 ∧ b3 ≤ 255 ∧ 0 ≤ b4 ∧ b4 ≤ 255) := by
            intro hcon
            have ht : codeValidIPv4 s = true := by
              simp only [codeValidIPv4, ipartOk, hl, heq1, heq2, heq3, heq4,
                Bool.and_eq_true, decide_eq_true_eq]
              tauto
            rw [ht] at hcv
            cases hcv
          rw [if_neg hfalse]
      all_goals rfl
    · rw [if_pos hl]
  · intro hcv
    simp only [codeValidIPv4, Bool.and_eq_true, decide_eq_true_eq] at hcv
    obtain ⟨⟨⟨⟨hl, ho1⟩, ho2⟩, ho3⟩, ho4⟩ := hcv
    obtain ⟨b1, hp1, hb1lo, hb1hi⟩ := ipartOk_elim _ ho1
    obtain ⟨b2, hp2, hb2lo, hb2hi⟩ := ipartOk_elim _ ho2
    obtain ⟨b3, hp3, hb3lo, hb3hi⟩ := ipartOk_elim _ ho3
    obtain ⟨b4, hp4, hb4lo, hb4hi⟩ := ipartOk_elim _ ho4
    refine ⟨b1, b2, b3, b4, hp1, hp2, hp3, hp4, hb1lo, hb1hi, hb2lo, hb2hi,
      hb3lo, hb3hi, hb4lo, hb4hi, ?_⟩
    simp only [writeIpAddrTx]
    rw [if_neg (by simp [hl])]
    rw [hp1, hp2, hp3, hp4]
    split
    · next c1 c2 c3 c4 heq1 heq2 heq3 heq4 =>
        injection heq1 with e1
        injection heq2 with e2
        injection heq3 with e3
        injection heq4 with e4
        subst e1
        subst e2
        subst e3
        subst e4
        rw [if_pos ⟨hb1lo, hb1hi, hb2lo, hb2hi, hb3lo, hb3hi, hb4lo,
          hb4hi⟩]
        rw [u32beBytes_octets _ _ _ _ (by omega) (by omega) (by omega)
          (by omega)]
        simp
    · next hno => exact (hno _ _ _ _ rfl rfl rfl rfl).elim
  · intro hs
    have hs2 := hs
    simp only [claimValidIPv4, Bool.and_eq_true, decide_eq_true_eq,
      List.all_eq_true] at hs2
    obtain ⟨hlen, hall⟩ := hs2
    obtain ⟨f1, f2, f3, f4, hsplit⟩ :
        ∃ a b c d, splitOnDot s = [a, b, c, d] := by
      match hsp : splitOnDot s, hlen with
      | [a, b, c, d], _ => exact ⟨a, b, c, d, rfl⟩
    have h1 := hall f1 (by rw [hsplit]; simp)
    have h2 := hall f2 (by rw [hsplit]; simp)
    have h3 := hall f3 (by rw [hsplit]; simp)
    have h4 := hall f4 (by rw [hsplit]; simp)
    simp only [isDecimalOctet, Bool.and_eq_true,
      decide_eq_true_eq] at h1 h2 h3 h4
    obtain ⟨⟨h1ne, h1dig⟩, h1le⟩ := h1
    obtain ⟨⟨h2ne, h2dig⟩, h2le⟩ := h2
    obtain ⟨⟨h3ne, h3dig⟩, h3le⟩ := h3
    obtain ⟨⟨h4ne, h4dig⟩, h4le⟩ := h4
    refine ⟨decimalDigitsVal f1, decimalDigitsVal f2, decimalDigitsVal f3,
      decimalDigitsVal f4, by rw [hsplit]; rfl, h1le, h2le, h3le, h4le, ?_⟩
    simp only [writeIpAddrTx, hsplit, List.getD_cons_zero,
      List.getD_cons_succ]
    rw [if_neg (by simp)]
    rw [pyIntParse_digits f1 h1ne h1dig, pyIntParse_digits f2 h2ne h2dig,
      pyIntParse_digits f3 h3ne h3dig, pyIntParse_digits f4 h4ne h4dig]
    split
    · next b1 b2 b3 b4 heq1 heq2 heq3 heq4 =>
        injection heq1 with e1
        injection heq2 with e2
        injection heq3 with e3
        injection heq4 with e4
        subst e1
        subst e2
        subst e3
        subst e4
        rw [if_pos (by refine ⟨?_, ?_, ?_, ?_, ?_, ?_, ?_, ?_⟩ <;> omega)]
        simp only [Int.toNat_natCast]
        rw [u32beBytes_octets _ _ _ _ h1le h2le h3le h4le]
        simp
    · next hno => exact (hno _ _ _ _ rfl rfl rfl rfl).elim

/-- C6 witness: "999.1.1.1" is rejected with 0x04 before any I/O;
"1_0.2.3.4" (not a plain dotted quad, but accepted by Python `int`) is
transmitted with parsed values 10, 2, 3, 4; and the strict quad
"169.254.1.1" is packed with value bytes 169, 254, 1, 1. -/
theorem c6_ipv4_validation_amended_witness :
    writeIpAddrTx 5100 ['9', '9', '9', '.', '1', '.', '1', '.', '1'] =
      .inl 0x04 ∧
    (∃ b1 b2 b3 b4 : Int,
      pyIntParse ((splitOnDot ['1', '_', '0', '.', '2', '.', '3', '.',
        '4']).getD 0 []) = some b1 ∧
      pyIntParse ((splitOnDot ['1', '_', '0', '.', '2', '.', '3', '.',
        '4']).getD 1 []) = some b2 ∧
      pyIntParse ((splitOnDot ['1', '_', '0', '.', '2', '.', '3', '.',
        '4']).getD 2 []) = some b3 ∧
      pyIntParse ((splitOnDot ['1', '_', '0', '.', '2', '.', '3', '.',
        '4']).getD 3 []) = some b4 ∧
      0 ≤ b1 ∧ b1 ≤ 255 ∧ 0 ≤ b2 ∧ b2 ≤ 255 ∧ 0 ≤ b3 ∧ b3 ≤ 255 ∧
      0 ≤ b4 ∧ b4 ≤ 255 ∧
      writeIpAddrTx 5100 ['1', '_', '0', '.', '2', '.', '3', '.', '4'] =
        .inr [0x0A, 0x42, 0x13, 0xEC, b1.toNat, b2.toNat, b3.toNat,
              b4.toNat]) ∧
    ∃ o1 o2 o3 o4,
      (splitOnDot ['1', '6', '9', '.', '2', '5', '4', '.', '1', '.',
        '1']).map decimalDigitsVal = [o1, o2, o3, o4] ∧
      o1 ≤ 255 ∧ o2 ≤ 255 ∧ o3 ≤ 255 ∧ o4 ≤ 255 ∧
      writeIpAddrTx 5100 ['1', '6', '9', '.', '2', '5', '4', '.', '1', '.',
        '1'] = .inr [0x0A, 0x42, 0x13, 0xEC, o1, o2, o3, o4] :=
  ⟨(c6_ipv4_validation_amended 5100 _).1 (by decide),
   (c6_ipv4_validation_amended 5100 _).2.1 (by decide),
   (c6_ipv4_validation_amended 5100 _).2.2 (by decide)⟩

end Cito
